import Mathlib

/-!
Verification of the routing and CORS layer of the `arcturus/users` service
(`src/users_router.rs`).  The Rust code is shallowly embedded: HTTP methods
become an inductive type, the endpoint registry becomes a list, the CORS
`after` middleware and the `setup` handler become Lean functions mirroring
the Rust control flow, and the external collaborators (body reading, JSON
decoding, the user builder from `users_db`, the user store) become explicit
parameters.
-/

set_option autoImplicit false

/-- HTTP methods used by the router (from `iron::method::Method`). -/
inductive Method where
  | Get
  | Head
  | Post
  | Delete
  | Options
  | Put
  | Patch
  deriving DecidableEq

/-- Rendering of a method name as it appears in an HTTP header value
(the `Display` rendering of `Method` in hyper). -/
def Method.toStr : Method → String
  | .Get => "GET"
  | .Head => "HEAD"
  | .Post => "POST"
  | .Delete => "DELETE"
  | .Options => "OPTIONS"
  | .Put => "PUT"
  | .Patch => "PATCH"

/-- The `Endpoint` type alias of the router: a method paired with a static
list of pattern segments. -/
abbrev Endpoint := Method × List String

/-- The static CORS endpoint registry (`CORS::ENDPOINTS`,
`users_router.rs` lines 27-42). -/
def CORS.ENDPOINTS : List Endpoint := [
  (Method.Post,   ["invitations"]),
  (Method.Get,    ["invitations"]),
  (Method.Delete, ["invitations"]),
  (Method.Post,   ["users"]),
  (Method.Get,    ["users"]),
  (Method.Put,    ["users", "*"]),
  (Method.Post,   ["users", "*"]),
  (Method.Post,   ["recoveries", "*"]),
  (Method.Get,    ["recoveries", "*", "*"]),
  (Method.Get,    ["permissions"]),
  (Method.Get,    ["permissions", "*"]),
  (Method.Get,    ["permissions", "*", "*"]),
  (Method.Get,    ["permissions", "_", "*"]),
  (Method.Put,    ["permissions", "*", "*"])]

/-- One segment comparison of the inner loop (`users_router.rs` lines
60-61): the loop continues (the segment pairs) exactly when
`req.url.path[i] == path || "*" == path`. -/
def segMatch (reqSeg patSeg : String) : Bool :=
  reqSeg == patSeg || patSeg == "*"

/-- The inner `for (i, path) in path.iter().enumerate()` loop
(`users_router.rs` lines 58-65), running over the zipped request/pattern
segments.  At each iteration `is_cors_endpoint` is first reset to `false`,
the loop `break`s on a segment mismatch, and otherwise sets the flag to
`true` and continues; an empty segment list leaves the incoming flag
untouched. -/
def segLoop : List (String × String) → Bool → Bool
  | [], flag => flag
  | (r, p) :: rest, _ => if segMatch r p then segLoop rest true else false

/-- The outer `for endpoint in CORS::ENDPOINTS` loop (`users_router.rs`
lines 50-69): skip on method mismatch, skip on segment-count mismatch,
otherwise run the inner loop and `break` as soon as the flag is `true`. -/
def corsScan (method : Method) (path : List String) : List Endpoint → Bool → Bool
  | [], flag => flag
  | e :: rest, flag =>
    if method ≠ e.1 then corsScan method path rest flag
    else if e.2.length ≠ path.length then corsScan method path rest flag
    else
      let f := segLoop (path.zip e.2) flag
      if f then f else corsScan method path rest f

/-- The classification computed by `CORS::after` before it decides whether
to attach headers: the value of `is_cors_endpoint` after the scan, starting
from `false`. -/
def classify (method : Method) (path : List String) : Bool :=
  corsScan method path CORS.ENDPOINTS false

/-- Declarative endpoint matching, as the specification states it: same
method, same segment count, and every pattern segment pairwise matches the
request segment (`*` matches, a literal only on exact string equality). -/
def matchesEndpoint (method : Method) (path : List String) (e : Endpoint) : Bool :=
  method == e.1 && path.length == e.2.length &&
    (path.zip e.2).all fun rp => segMatch rp.1 rp.2

/-- An HTTP response as the CORS gate sees it: a status, a header map
(name/value pairs) and a body.  `CORS::after` never touches the status or
the body. -/
structure Response where
  status : Option Nat
  headers : List (String × String)
  body : String
  deriving DecidableEq

/-- Entries of a header list whose name differs from `name`; helper for
`setHeader`. -/
def removeHeader : List (String × String) → String → List (String × String)
  | [], _ => []
  | h :: rest, name =>
    if h.1 = name then removeHeader rest name else h :: removeHeader rest name

/-- `Headers::set` from hyper, used by `res.headers.set(...)`: it replaces
any existing header of the same name with the new value (it does not keep
the old value). -/
def setHeader (hs : List (String × String)) (name value : String) :
    List (String × String) :=
  removeHeader hs name ++ [(name, value)]

/-- First value stored under a header name, if any. -/
def lookupHeader : List (String × String) → String → Option String
  | [], _ => none
  | h :: rest, name => if h.1 = name then some h.2 else lookupHeader rest name

def aOrigin : String := "Access-Control-Allow-Origin"

def aHeaders : String := "Access-Control-Allow-Headers"

def aMethods : String := "Access-Control-Allow-Methods"

/-- The method list placed in `Access-Control-Allow-Methods`
(`users_router.rs` line 80): `vec![Get,Head,Post,Delete,Options,Put,Patch]`. -/
def corsAllowMethods : List Method :=
  [.Get, .Head, .Post, .Delete, .Options, .Put, .Patch]

/-- The rendered `Access-Control-Allow-Methods` header value. -/
def allowMethodsValue : String :=
  String.intercalate ", " (corsAllowMethods.map Method.toStr)

/-- `CORS::after` (`users_router.rs` lines 46-82): if the request is not a
CORS endpoint the response is returned as is; otherwise the three CORS
headers are set (`Access-Control-Allow-Origin: *`,
`Access-Control-Allow-Headers: accept, content-type`, and the allow-methods
list). -/
def CORS.after (method : Method) (path : List String) (res : Response) :
    Response :=
  if classify method path then
    let hs1 := setHeader res.headers aOrigin "*"
    let hs2 := setHeader hs1 aHeaders "accept, content-type"
    let hs3 := setHeader hs2 aMethods allowMethodsValue
    { res with headers := hs3 }
  else res

/-- The decoded setup payload (`SetupBody` in `UsersRouter::setup`,
`users_router.rs` lines 117-122). -/
structure SetupBody where
  username : Option String
  email : Option String
  password : String

/-- A candidate user record.  Modelled from the spec: `users_db.rs` is not
part of this source tree; section 3 of the specification gives the record
the fields `name`, `email`, `password`.  No claim depends on the field
contents — the record passes through the handler opaquely. -/
structure User where
  name : String
  email : String
  password : String
  deriving DecidableEq

/-- The builder error kind.  Modelled from the spec: `users_db.rs` is not
part of this source tree; the handler only distinguishes `EmptyEmail` from
every other kind, and section 4.4 of the specification names
`InvalidPassword` and `InvalidEmail` as the hard-failure kinds. -/
inductive UserBuilderError where
  | EmptyEmail
  | InvalidEmail
  | InvalidPassword
  deriving DecidableEq

/-- The error value returned by `UserBuilder::finalize`: an error kind
together with the partially-built record (`err.error` and `err.user` in
`users_router.rs` lines 152-160). -/
structure BuilderFailure where
  error : UserBuilderError
  user : User
  deriving DecidableEq

/-- An `IronResult<Response>` as `setup` and `not_implemented` produce it:
either `Ok` of a response (a status and a body string), or
`Err(IronError::new(StringError(description), code))`. -/
inductive IronOutcome where
  | ok (status : Nat) (body : String)
  | err (description : String) (code : Nat)
  deriving DecidableEq

/-- The external collaborators of `UsersRouter::setup`: the request body
read (`none` models a failed `read_to_string`), the JSON decoder (the error
carries `err.description()`), `UserBuilder::...::finalize`, and
`UsersDb::create`. -/
structure SetupEnv where
  readBody : Option String
  decode : String → Except String SetupBody
  finalize : String → String → String → Except BuilderFailure User
  create : User → Except String Unit

/-- `UsersRouter::setup` (`users_router.rs` lines 116-173).  The result is
`none` when `req.body.read_to_string(..).unwrap()` panics, and otherwise
the produced `IronResult` paired with the list of records passed to
`db.create`, in call order. -/
def UsersRouter.setup (env : SetupEnv) : Option (IronOutcome × List User) :=
  match env.readBody with
  | none => none
  | some payload =>
    match env.decode payload with
    | .error e => some (.err e 400, [])
    | .ok body =>
      let email := body.email.getD ""
      let name := body.username.getD "admin"
      let adminResult : Except IronOutcome User :=
        match env.finalize name email body.password with
        | .ok user => .ok user
        | .error failure =>
          if failure.error ≠ UserBuilderError.EmptyEmail then
            .error (.err "Bad request" 400)
          else .ok failure.user
      match adminResult with
      | .error r => some (r, [])
      | .ok admin =>
        match env.create admin with
        | .ok _ => some (.ok 200 "", [admin])
        | .error _ => some (.err "Internal Server Error" 500, [admin])

/-- A request as the stub handlers receive it. -/
structure Request where
  method : Method
  path : List String
  body : Option String

/-- `UsersRouter::not_implemented` (`users_router.rs` lines 112-114):
`Ok(Response::with(status::NotImplemented))`, touching neither the request
nor the store (the second component is the list of `create` calls it
makes). -/
def UsersRouter.not_implemented (_ : Request) : IronOutcome × List User :=
  (.ok 501 "", [])

/-! ## Lemmas about the CORS scan -/

theorem segLoop_true_eq (l : List (String × String)) :
    segLoop l true = l.all fun rp => segMatch rp.1 rp.2 := by
  induction l with
  | nil => rfl
  | cons x rest ih =>
    obtain ⟨r, p⟩ := x
    by_cases h : segMatch r p = true
    · simp [segLoop, h, ih]
    · simp [segLoop, h]

theorem segLoop_ne_nil (l : List (String × String)) (flag : Bool) (h : l ≠ []) :
    segLoop l flag = l.all fun rp => segMatch rp.1 rp.2 := by
  match l, h with
  | (r, p) :: rest, _ =>
    by_cases hm : segMatch r p = true
    · simp [segLoop, hm, segLoop_true_eq]
    · simp [segLoop, hm]

theorem zip_ne_nil_of_lengths {path pat : List String} (hpat : pat ≠ [])
    (hl : pat.length = path.length) : path.zip pat ≠ [] := by
  have h1 : 0 < pat.length := List.length_pos.mpr hpat
  have h2 : 0 < (path.zip pat).length := by
    rw [List.length_zip]
    omega
  exact List.length_pos.mp h2

theorem corsScan_eq_any (method : Method) (path : List String) :
    ∀ es : List Endpoint, (∀ e ∈ es, e.2 ≠ []) →
      corsScan method path es false =
        es.any fun e => matchesEndpoint method path e := by
  intro es
  induction es with
  | nil => intro _; rfl
  | cons e rest ih =>
    intro hne
    have he : e.2 ≠ [] := hne e (List.mem_cons_self e rest)
    have hrest : ∀ x ∈ rest, x.2 ≠ [] :=
      fun x hx => hne x (List.mem_cons_of_mem e hx)
    by_cases hm : method = e.1
    · subst hm
      by_cases hl : e.2.length = path.length
      · have hzip : path.zip e.2 ≠ [] := zip_ne_nil_of_lengths he hl
        have hstep : corsScan e.1 path (e :: rest) false =
            (if segLoop (path.zip e.2) false then segLoop (path.zip e.2) false
             else corsScan e.1 path rest (segLoop (path.zip e.2) false)) := by
          simp [corsScan, hl]
        rw [hstep, segLoop_ne_nil _ _ hzip]
        by_cases hA : ((path.zip e.2).all fun rp => segMatch rp.1 rp.2) = true
        · simp [hA, List.any_cons, matchesEndpoint, hl]
        · simp only [Bool.not_eq_true] at hA
          simp [hA, ih hrest, List.any_cons, matchesEndpoint, hl]
      · have hlen : (path.length == e.2.length) = false := by
          simp only [beq_eq_false_iff_ne, ne_eq]
          omega
        have hme : matchesEndpoint e.1 path e = false := by
          simp [matchesEndpoint, hlen]
        simp [corsScan, hl, ih hrest, List.any_cons, hme]
    · have hmeq : (method == e.1) = false := by
        simp [hm]
      have hme : matchesEndpoint method path e = false := by
        simp [matchesEndpoint, hmeq]
      simp [corsScan, hm, ih hrest, List.any_cons, hme]

/-- C1: `classify` returns `true` exactly when some registry entry has the
method of the request, the same segment count as the request path, and every
pattern segment pairwise matches the request segment — `*` matching, a
literal matching only on exact, case-sensitive equality; in particular a
segment-count mismatch with a pattern never matches that pattern, since
`matchesEndpoint` requires equal lengths. -/
theorem classify_iff_exists_match (method : Method) (path : List String) :
    classify method path = true ↔
      ∃ e ∈ CORS.ENDPOINTS, matchesEndpoint method path e = true := by
  rw [classify, corsScan_eq_any method path CORS.ENDPOINTS (by decide)]
  simp [List.any_eq_true]

/-! ## Lemmas about the header map -/

theorem lookupHeader_append (hs1 hs2 : List (String × String)) (name : String) :
    lookupHeader (hs1 ++ hs2) name =
      match lookupHeader hs1 name with
      | some v => some v
      | none => lookupHeader hs2 name := by
  induction hs1 with
  | nil => simp [lookupHeader]
  | cons x rest ih =>
    by_cases hx : x.1 = name
    · simp [lookupHeader, hx]
    · simp [lookupHeader, hx, ih]

theorem lookupHeader_removeHeader_self (hs : List (String × String))
    (name : String) : lookupHeader (removeHeader hs name) name = none := by
  induction hs with
  | nil => rfl
  | cons x rest ih =>
    by_cases hx : x.1 = name
    · simp [removeHeader, hx, ih]
    · simp [removeHeader, lookupHeader, hx, ih]

theorem lookupHeader_removeHeader_ne (hs : List (String × String))
    {name n : String} (h : name ≠ n) :
    lookupHeader (removeHeader hs n) name = lookupHeader hs name := by
  induction hs with
  | nil => rfl
  | cons x rest ih =>
    by_cases hx : x.1 = n
    · simp [removeHeader, hx, lookupHeader, Ne.symm h, ih]
    · simp [removeHeader, hx, lookupHeader, ih]

theorem lookupHeader_setHeader_self (hs : List (String × String))
    (name value : String) :
    lookupHeader (setHeader hs name value) name = some value := by
  rw [setHeader, lookupHeader_append, lookupHeader_removeHeader_self]
  simp [lookupHeader]

theorem lookupHeader_setHeader_ne (hs : List (String × String))
    {name n : String} (v : String) (h : name ≠ n) :
    lookupHeader (setHeader hs n v) name = lookupHeader hs name := by
  rw [setHeader, lookupHeader_append, lookupHeader_removeHeader_ne hs h]
  cases hE : lookupHeader hs name with
  | some w => rfl
  | none => simp [lookupHeader, Ne.symm h]

theorem lookupHeader_setHeader_isSome (hs : List (String × String))
    (name n v : String) (h : (lookupHeader hs name).isSome) :
    (lookupHeader (setHeader hs n v) name).isSome := by
  by_cases he : name = n
  · subst he
    rw [lookupHeader_setHeader_self]
    rfl
  · rw [lookupHeader_setHeader_ne hs v he]
    exact h

theorem after_headers_of_classify {m : Method} {p : List String}
    (res : Response) (h : classify m p = true) :
    (CORS.after m p res).headers =
      setHeader (setHeader (setHeader res.headers aOrigin "*")
        aHeaders "accept, content-type") aMethods allowMethodsValue := by
  simp [CORS.after, h]

/-- C2 counterexample: for the CORS-eligible request `GET /users`, the
`Access-Control-Allow-Methods` header the gate sets lists seven methods —
PATCH included — not the six the claim states. -/
theorem corsAllowMethods_includes_patch :
    classify Method.Get ["users"] = true ∧
    lookupHeader (CORS.after Method.Get ["users"]
        ⟨none, [], ""⟩).headers aMethods =
      some "GET, HEAD, POST, DELETE, OPTIONS, PUT, PATCH" ∧
    "GET, HEAD, POST, DELETE, OPTIONS, PUT, PATCH" ≠
      "GET, HEAD, POST, DELETE, OPTIONS, PUT" := by
  refine ⟨by decide, by decide, by decide⟩

/-- C2 (amended): when the gate classifies a request as CORS-eligible it
sets exactly the three CORS headers — allow-origin `*`, the two allowed
request headers, and the allow-methods list — leaving every header under
any other name with its original value; the methods list however names
seven methods: GET, HEAD, POST, DELETE, OPTIONS, PUT and PATCH. -/
theorem cors_after_sets_three_headers (m : Method) (p : List String)
    (res : Response) (h : classify m p = true) :
    lookupHeader (CORS.after m p res).headers aOrigin = some "*" ∧
    lookupHeader (CORS.after m p res).headers aHeaders =
      some "accept, content-type" ∧
    lookupHeader (CORS.after m p res).headers aMethods =
      some allowMethodsValue ∧
    allowMethodsValue = "GET, HEAD, POST, DELETE, OPTIONS, PUT, PATCH" ∧
    ∀ name, name ≠ aOrigin → name ≠ aHeaders → name ≠ aMethods →
      lookupHeader (CORS.after m p res).headers name =
        lookupHeader res.headers name := by
  rw [after_headers_of_classify res h]
  refine ⟨?_, ?_, ?_, by decide, ?_⟩
  · rw [lookupHeader_setHeader_ne _ _ (by decide),
      lookupHeader_setHeader_ne _ _ (by decide), lookupHeader_setHeader_self]
  · rw [lookupHeader_setHeader_ne _ _ (by decide), lookupHeader_setHeader_self]
  · rw [lookupHeader_setHeader_self]
  · intro name h1 h2 h3
    rw [lookupHeader_setHeader_ne _ _ h3, lookupHeader_setHeader_ne _ _ h2,
      lookupHeader_setHeader_ne _ _ h1]

/-- C2 witness: the amended theorem applied at `GET /users` with a response
carrying an unrelated header. -/
theorem cors_after_sets_three_headers_witness :
    lookupHeader (CORS.after Method.Get ["users"]
        ⟨some 200, [("X-Custom", "v")], ""⟩).headers aOrigin = some "*" ∧
    lookupHeader (CORS.after Method.Get ["users"]
        ⟨some 200, [("X-Custom", "v")], ""⟩).headers "X-Custom" =
      lookupHeader [("X-Custom", "v")] "X-Custom" :=
  ⟨(cors_after_sets_three_headers Method.Get ["users"]
      ⟨some 200, [("X-Custom", "v")], ""⟩ (by decide)).1,
   (cors_after_sets_three_headers Method.Get ["users"]
      ⟨some 200, [("X-Custom", "v")], ""⟩ (by decide)).2.2.2.2
     "X-Custom" (by decide) (by decide) (by decide)⟩

/-- C3 counterexample: the wildcard comparison accepts the empty request
segment — `PUT /users//` style paths with an empty second segment are
classified as CORS-eligible, though the claim says an empty segment at a
wildcard position must not match. -/
theorem wildcard_matches_empty_segment :
    segMatch "" "*" = true ∧ classify Method.Put ["users", ""] = true := by
  refine ⟨by decide, by decide⟩

/-- C3 (amended): a wildcard pattern segment matches every request segment,
the empty string included; a literal pattern segment matches exactly the
identical string, rejecting any difference of case or content. -/
theorem segMatch_characterization :
    (∀ r : String, segMatch r "*" = true) ∧
    ∀ r p : String, p ≠ "*" → (segMatch r p = true ↔ r = p) := by
  constructor
  · intro r
    simp [segMatch]
  · intro r p hp
    simp [segMatch, hp]

/-- C3 witness: the amended theorem applied to a wildcard against a string
with special characters and to the literal `users` against `Users`. -/
theorem segMatch_characterization_witness :
    segMatch "a b/c%" "*" = true ∧
    (segMatch "Users" "users" = true ↔ "Users" = "users") :=
  ⟨segMatch_characterization.1 "a b/c%",
   segMatch_characterization.2 "Users" "users" (by decide)⟩

/-- C5: when no registry entry matches the method and path of the request,
the gate returns the handler response unchanged — headers, status and body
all identical, so in particular none of the three CORS headers is added. -/
theorem cors_after_nonmatch_id (m : Method) (p : List String)
    (res : Response) (h : classify m p = false) : CORS.after m p res = res := by
  simp [CORS.after, h]

/-- C5 witness: the theorem applied at the non-CORS request `POST /setup`. -/
theorem cors_after_nonmatch_id_witness :
    CORS.after Method.Post ["setup"]
      ⟨some 200, [("X-Custom", "v")], "ok"⟩ =
      ⟨some 200, [("X-Custom", "v")], "ok"⟩ :=
  cors_after_nonmatch_id Method.Post ["setup"]
    ⟨some 200, [("X-Custom", "v")], "ok"⟩ (by decide)

/-- C6 counterexample: a response already carrying
`Access-Control-Allow-Origin: http://example.com`, passed through the gate
for the CORS-eligible request `GET /users`, has that existing value
rewritten to `*` — `Headers::set` replaces, so the gate does not only add
headers. -/
theorem cors_after_rewrites_existing_header :
    lookupHeader [(aOrigin, "http://example.com")] aOrigin =
      some "http://example.com" ∧
    lookupHeader (CORS.after Method.Get ["users"]
        ⟨none, [(aOrigin, "http://example.com")], ""⟩).headers aOrigin =
      some "*" := by
  refine ⟨by decide, by decide⟩

/-- C6 (amended): the gate never removes a header — every header name
present on the incoming response is still present afterwards — and never
changes the value of any header whose name is not one of the three CORS
header names; an existing value of one of those three may however be
overwritten when the request is CORS-eligible. -/
theorem cors_after_frame (m : Method) (p : List String) (res : Response)
    (name : String) :
    ((lookupHeader res.headers name).isSome →
      (lookupHeader (CORS.after m p res).headers name).isSome) ∧
    (name ≠ aOrigin → name ≠ aHeaders → name ≠ aMethods →
      lookupHeader (CORS.after m p res).headers name =
        lookupHeader res.headers name) := by
  by_cases h : classify m p = true
  · rw [after_headers_of_classify res h]
    constructor
    · intro hsome
      exact lookupHeader_setHeader_isSome _ _ _ _
        (lookupHeader_setHeader_isSome _ _ _ _
          (lookupHeader_setHeader_isSome _ _ _ _ hsome))
    · intro h1 h2 h3
      rw [lookupHeader_setHeader_ne _ _ h3, lookupHeader_setHeader_ne _ _ h2,
        lookupHeader_setHeader_ne _ _ h1]
  · have hid : CORS.after m p res = res := by
      simp [CORS.after, h]
    rw [hid]
    exact ⟨id, fun _ _ _ => rfl⟩

/-- C6 witness: the amended theorem applied at `GET /users` with a response
carrying an unrelated header. -/
theorem cors_after_frame_witness :
    lookupHeader (CORS.after Method.Get ["users"]
        ⟨none, [("X-Custom", "v")], ""⟩).headers "X-Custom" =
      lookupHeader [("X-Custom", "v")] "X-Custom" ∧
    (lookupHeader (CORS.after Method.Get ["users"]
        ⟨none, [("X-Custom", "v")], ""⟩).headers "X-Custom").isSome :=
  ⟨(cors_after_frame Method.Get ["users"]
      ⟨none, [("X-Custom", "v")], ""⟩ "X-Custom").2
     (by decide) (by decide) (by decide),
   (cors_after_frame Method.Get ["users"]
      ⟨none, [("X-Custom", "v")], ""⟩ "X-Custom").1 (by decide)⟩

/-- C7: when the body parses but JSON decoding fails, `setup` answers 400
with the error description of the parser and calls `create` on nothing. -/
theorem setup_parse_failure (env : SetupEnv) (payload msg : String)
    (hr : env.readBody = some payload)
    (hd : env.decode payload = .error msg) :
    UsersRouter.setup env = some (.err msg 400, []) := by
  simp [UsersRouter.setup, hr, hd]

/-- C7 witness: the theorem applied to a concrete environment whose decoder
rejects the payload. -/
theorem setup_parse_failure_witness :
    UsersRouter.setup
      ⟨some "not json", fun _ => .error "expected value",
       fun n e p => .ok ⟨n, e, p⟩, fun _ => .ok ()⟩ =
      some (.err "expected value" 400, []) :=
  setup_parse_failure _ "not json" "expected value" rfl rfl

/-- C4: when the builder fails, `setup` answers 400 without calling
`create` if the failure is anything but `EmptyEmail`, and proceeds to call
`create` on the partially-validated record when the failure is
`EmptyEmail`. -/
theorem setup_builder_fallback (env : SetupEnv) (payload : String)
    (body : SetupBody) (failure : BuilderFailure)
    (hr : env.readBody = some payload)
    (hd : env.decode payload = .ok body)
    (hf : env.finalize (body.username.getD "admin") (body.email.getD "")
        body.password = .error failure) :
    (failure.error ≠ .EmptyEmail →
      UsersRouter.setup env = some (.err "Bad request" 400, [])) ∧
    (failure.error = .EmptyEmail →
      ∃ out, UsersRouter.setup env = some (out, [failure.user])) := by
  constructor
  · intro hne
    simp [UsersRouter.setup, hr, hd, hf, hne]
  · intro he
    cases hc : env.create failure.user with
    | ok u => exact ⟨.ok 200 "", by simp [UsersRouter.setup, hr, hd, hf, he, hc]⟩
    | error msg =>
      exact ⟨.err "Internal Server Error" 500,
        by simp [UsersRouter.setup, hr, hd, hf, he, hc]⟩

/-- C4 witness: the theorem applied to a hard `InvalidPassword` failure and
to an `EmptyEmail` failure. -/
theorem setup_builder_fallback_witness :
    UsersRouter.setup
      ⟨some "x", fun _ => .ok ⟨none, none, "pw"⟩,
       fun _ _ _ => .error ⟨.InvalidPassword, ⟨"admin", "", "pw"⟩⟩,
       fun _ => .ok ()⟩ = some (.err "Bad request" 400, []) ∧
    ∃ out, UsersRouter.setup
      ⟨some "x", fun _ => .ok ⟨none, none, "pw"⟩,
       fun _ _ _ => .error ⟨.EmptyEmail, ⟨"admin", "", "pw"⟩⟩,
       fun _ => .ok ()⟩ = some (out, [⟨"admin", "", "pw"⟩]) :=
  ⟨(setup_builder_fallback _ "x" ⟨none, none, "pw"⟩
      ⟨.InvalidPassword, ⟨"admin", "", "pw"⟩⟩ rfl rfl rfl).1 (by decide),
   (setup_builder_fallback _ "x" ⟨none, none, "pw"⟩
      ⟨.EmptyEmail, ⟨"admin", "", "pw"⟩⟩ rfl rfl rfl).2 rfl⟩

/-- C8: once a record reaches the persistence step — the builder returned
it, either outright or through the waived `EmptyEmail` outcome — a
successful `create` yields 200 with an empty body, and a failed `create`
yields 500 whose body is the fixed string `Internal Server Error`,
whatever the storage error said. -/
theorem setup_persistence_outcomes (env : SetupEnv) (payload : String)
    (body : SetupBody) (user : User)
    (hr : env.readBody = some payload)
    (hd : env.decode payload = .ok body)
    (hf : env.finalize (body.username.getD "admin") (body.email.getD "")
          body.password = .ok user ∨
        env.finalize (body.username.getD "admin") (body.email.getD "")
          body.password = .error ⟨.EmptyEmail, user⟩) :
    (env.create user = .ok () →
      UsersRouter.setup env = some (.ok 200 "", [user])) ∧
    ∀ msg, env.create user = .error msg →
      UsersRouter.setup env = some (.err "Internal Server Error" 500, [user]) := by
  constructor
  · intro hc
    cases hf with
    | inl h => simp [UsersRouter.setup, hr, hd, h, hc]
    | inr h => simp [UsersRouter.setup, hr, hd, h, hc]
  · intro msg hc
    cases hf with
    | inl h => simp [UsersRouter.setup, hr, hd, h, hc]
    | inr h => simp [UsersRouter.setup, hr, hd, h, hc]

/-- C8 witness: the theorem applied to a concrete environment once with a
succeeding store and once with a store failing with `disk full`. -/
theorem setup_persistence_outcomes_witness :
    UsersRouter.setup
      ⟨some "x", fun _ => .ok ⟨some "root", some "a@b", "pw"⟩,
       fun n e p => .ok ⟨n, e, p⟩, fun _ => .ok ()⟩ =
      some (.ok 200 "", [⟨"root", "a@b", "pw"⟩]) ∧
    UsersRouter.setup
      ⟨some "x", fun _ => .ok ⟨some "root", some "a@b", "pw"⟩,
       fun n e p => .ok ⟨n, e, p⟩, fun _ => .error "disk full"⟩ =
      some (.err "Internal Server Error" 500, [⟨"root", "a@b", "pw"⟩]) :=
  ⟨(setup_persistence_outcomes _ "x" ⟨some "root", some "a@b", "pw"⟩
      ⟨"root", "a@b", "pw"⟩ rfl rfl (Or.inl rfl)).1 rfl,
   (setup_persistence_outcomes _ "x" ⟨some "root", some "a@b", "pw"⟩
      ⟨"root", "a@b", "pw"⟩ rfl rfl (Or.inl rfl)).2 "disk full" rfl⟩

/-- C9: the not-implemented stub answers 501 with an empty body for every
request and makes no `create` call, independent of the request method,
path or body. -/
theorem not_implemented_fixed (req : Request) :
    UsersRouter.not_implemented req = (.ok 501 "", []) := rfl

theorem setup_isSome_of_read (env : SetupEnv) (payload : String)
    (hr : env.readBody = some payload) :
    (UsersRouter.setup env).isSome = true := by
  simp only [UsersRouter.setup, hr]
  cases hd : env.decode payload with
  | error e => rfl
  | ok body =>
    simp only []
    cases hfin : env.finalize (body.username.getD "admin")
        (body.email.getD "") body.password with
    | ok user => cases hc : env.create user <;> simp [hc]
    | error failure =>
      by_cases he : failure.error ≠ UserBuilderError.EmptyEmail
      · simp [he]
      · simp only [he, if_false]
        cases hc : env.create failure.user <;> simp [hc]

/-- C10: `setup` unwraps the body read, so it panics — produces no
response — exactly when reading the request body fails, and under the
precondition that the read succeeds it always produces some response. -/
theorem setup_none_iff_read_fails (env : SetupEnv) :
    UsersRouter.setup env = none ↔ env.readBody = none := by
  constructor
  · intro h
    cases hr : env.readBody with
    | none => rfl
    | some payload =>
      have hs := setup_isSome_of_read env payload hr
      rw [h] at hs
      simp at hs
  · intro h
    simp [UsersRouter.setup, h]
